import Mathlib

/-!
Verification development for the tourbox-linux driver.

This file shallowly embeds the transport-agnostic core of the driver:

* the haptic configuration encoder (`src/tuxbox/haptic.py`),
* the event-resolution state machine of `TourBoxBase`
  (`src/tourboxelite/device_base.py`: `process_button_code`,
  `switch_profile`, `clear_modifier_state`, `reload_config_mappings`,
  `on_window_change`),
* profile matching and ordering (`Profile.matches` of
  `src/tuxbox/config_loader.py`, `discover_profiles` of
  `src/tourboxelite/profile_io.py`),
* the BLE reconnect backoff (`src/tuxbox/device_ble.py`).

Modelling conventions:

* Python dicts become association lists with Python dict semantics
  (assignment updates in place or appends, deletion removes the key);
  Python sets become duplicate-free lists with append-on-add.
* Actions are represented by their `parse_action` result, a list of
  `(event_type, event_code, value)` triples; the load-time string
  parsing itself is configuration glue outside the claims.
* Wall-clock timestamps are integers in milliseconds; the Python code
  compares `(time.time() - first) * 1000 < timeout`, embedded here as
  `now - first < timeout` over `Int`.
* `controller.write` calls append an `Out.ev` to the emitted output
  list and `controller.syn()` appends `Out.syn`; the virtual device is
  modelled by a generation counter that increments whenever the code
  destroys and recreates the `UInput` device.
* Python string `.lower()` is modelled on ASCII codepoints.
-/

namespace Tourbox

/-- One evdev event tuple `(event_type, event_code, value)`. -/
structure Ev where
  typ : Nat
  code : Nat
  val : Int
deriving DecidableEq, Repr

/-- Output to the virtual input device: an event write or a syn marker. -/
inductive Out where
  | ev : Nat → Nat → Int → Out
  | syn : Out
deriving DecidableEq, Repr

/-- evdev event type EV_KEY. -/
def EV_KEY : Nat := 1
/-- evdev event type EV_REL. -/
def EV_REL : Nat := 2

/-- evdev key codes used by the development (from `evdev.ecodes`). -/
def KEY_LEFTCTRL : Nat := 29
/-- evdev key code KEY_LEFTSHIFT. -/
def KEY_LEFTSHIFT : Nat := 42
/-- evdev key code KEY_RIGHTCTRL. -/
def KEY_RIGHTCTRL : Nat := 97
/-- evdev key code KEY_RIGHTSHIFT. -/
def KEY_RIGHTSHIFT : Nat := 54
/-- evdev key code KEY_LEFTALT. -/
def KEY_LEFTALT : Nat := 56
/-- evdev key code KEY_RIGHTALT. -/
def KEY_RIGHTALT : Nat := 100
/-- evdev key code KEY_LEFTMETA. -/
def KEY_LEFTMETA : Nat := 125
/-- evdev key code KEY_RIGHTMETA. -/
def KEY_RIGHTMETA : Nat := 126
/-- evdev key code KEY_A. -/
def KEY_A : Nat := 30
/-- evdev key code KEY_B. -/
def KEY_B : Nat := 48
/-- evdev key code KEY_C. -/
def KEY_C : Nat := 46
/-- evdev key code KEY_V. -/
def KEY_V : Nat := 47
/-- evdev key code KEY_Z. -/
def KEY_Z : Nat := 44

/-- `KEYBOARD_MODIFIER_KEYS` of `device_base.py`: keyboard modifier key
codes that the modifier-delay logic sends first. -/
def KEYBOARD_MODIFIER_KEYS : List Nat :=
  [KEY_LEFTCTRL, KEY_RIGHTCTRL, KEY_LEFTSHIFT, KEY_RIGHTSHIFT,
   KEY_LEFTALT, KEY_RIGHTALT, KEY_LEFTMETA, KEY_RIGHTMETA]

/-- Python dict lookup `d.get(k)` on an association list. -/
def dGet {α β : Type} [DecidableEq α] : List (α × β) → α → Option β
  | [], _ => none
  | (k, v) :: rest, key => if k = key then some v else dGet rest key

/-- Python dict membership `k in d`. -/
def dHas {α β : Type} [DecidableEq α] (d : List (α × β)) (key : α) : Bool := (dGet d key).isSome

/-- Python dict assignment `d[k] = v`: update in place, or append. -/
def dSet {α β : Type} [DecidableEq α] : List (α × β) → α → β → List (α × β)
  | [], key, v => [(key, v)]
  | (k, w) :: rest, key, v =>
      if k = key then (k, v) :: rest else (k, w) :: dSet rest key v

/-- Python dict deletion `del d[k]` / `d.pop(k, None)`. -/
def dDel {α β : Type} [DecidableEq α] : List (α × β) → α → List (α × β)
  | [], _ => []
  | (k, w) :: rest, key => if k = key then rest else (k, w) :: dDel rest key

/-- Python set `s.add(x)`. -/
def sAdd {α : Type} [DecidableEq α] (s : List α) (x : α) : List α := if x ∈ s then s else s ++ [x]

/-- Python set `s.discard(x)`. -/
def sDiscard {α : Type} [DecidableEq α] (s : List α) (x : α) : List α := s.filter (fun y => decide (y ≠ x))

/-! ## Haptic encoder (`src/tuxbox/haptic.py`) -/

/-- `HapticStrength` enum. -/
inductive HapticStrength where
  | off | weak | strong
deriving DecidableEq, Repr

/-- Byte value of a `HapticStrength` (OFF = 0x00, WEAK = 0x04, STRONG = 0x08). -/
def HapticStrength.value : HapticStrength → Nat
  | .off => 0x00
  | .weak => 0x04
  | .strong => 0x08

/-- `HapticSpeed` enum. -/
inductive HapticSpeed where
  | fast | medium | slow
deriving DecidableEq, Repr

/-- Byte value of a `HapticSpeed` (FAST = 0x00, MEDIUM = 0x01, SLOW = 0x02). -/
def HapticSpeed.value : HapticSpeed → Nat
  | .fast => 0x00
  | .medium => 0x01
  | .slow => 0x02

/-- `HapticConfig` dataclass: per-dial, per-combo and global settings. -/
structure HapticConfig where
  dialSettings : List (String × HapticStrength) := []
  dialSpeedSettings : List (String × HapticSpeed) := []
  comboSettings : List ((String × Option String) × HapticStrength) := []
  comboSpeedSettings : List ((String × Option String) × HapticSpeed) := []
  globalSetting : Option HapticStrength := none
  globalSpeed : Option HapticSpeed := none
deriving DecidableEq, Repr

/-- `HapticConfig.default_off()`: global strength OFF, global speed FAST. -/
def HapticConfig.defaultOff : HapticConfig :=
  { globalSetting := some .off, globalSpeed := some .fast }

/-- Python truthiness of an optional string (`None` and `""` are falsy). -/
def truthy : Option String → Bool
  | none => false
  | some s => s ≠ ""

/-- `HapticConfig.get_strength`: combo setting, then per-dial setting,
then global setting, then OFF. -/
def HapticConfig.getStrength (cfg : HapticConfig) (dial : String)
    (modifier : Option String) : HapticStrength :=
  match dGet cfg.comboSettings (dial, modifier) with
  | some s => s
  | none =>
    match dGet cfg.dialSettings dial with
    | some s => s
    | none => cfg.globalSetting.getD .off

/-- `HapticConfig.get_speed`: the combo setting is consulted only when
both `dial` and `modifier` are truthy (`if dial and modifier:`), then
per-dial setting (guarded by `if dial and ...`), then global, then FAST. -/
def HapticConfig.getSpeed (cfg : HapticConfig) (dial : String)
    (modifier : Option String) : HapticSpeed :=
  let comboHit : Option HapticSpeed :=
    if dial ≠ "" ∧ truthy modifier then
      dGet cfg.comboSpeedSettings (dial, modifier)
    else none
  match comboHit with
  | some s => s
  | none =>
    match (if dial ≠ "" then dGet cfg.dialSpeedSettings dial else none) with
    | some s => s
    | none => cfg.globalSpeed.getD .fast

/-- `HAPTIC_BYTE_OFFSETS`: the fixed `(dial, modifier) -> byte offset`
table of the 94-byte configuration message. -/
def HAPTIC_BYTE_OFFSETS : List ((String × Option String) × Nat) :=
  [ (("knob", none), 4),
    (("knob", some "tall"), 6),
    (("knob", some "short"), 8),
    (("knob", some "top"), 10),
    (("knob", some "side"), 12),
    (("knob", some "knob_click"), 34),
    (("knob", some "scroll_click"), 36),
    (("knob", some "dial_click"), 38),
    (("knob", some "tour"), 40),
    (("knob", some "dpad_up"), 42),
    (("knob", some "dpad_down"), 44),
    (("knob", some "dpad_left"), 46),
    (("knob", some "dpad_right"), 48),
    (("knob", some "c1"), 50),
    (("knob", some "c2"), 52),
    (("scroll", none), 14),
    (("scroll", some "tall"), 16),
    (("scroll", some "short"), 18),
    (("scroll", some "top"), 20),
    (("scroll", some "side"), 22),
    (("scroll", some "dpad_up"), 26),
    (("scroll", some "dpad_down"), 28),
    (("scroll", some "dpad_left"), 30),
    (("scroll", some "dpad_right"), 32),
    (("scroll", some "scroll_click"), 54),
    (("scroll", some "knob_click"), 56),
    (("scroll", some "dial_click"), 58),
    (("scroll", some "tour"), 60),
    (("scroll", some "c1"), 62),
    (("scroll", some "c2"), 64),
    (("dial", none), 24),
    (("dial", some "dial_click"), 66),
    (("dial", some "knob_click"), 68),
    (("dial", some "scroll_click"), 70),
    (("dial", some "tour"), 72),
    (("dial", some "dpad_up"), 74),
    (("dial", some "dpad_down"), 76),
    (("dial", some "dpad_left"), 78),
    (("dial", some "dpad_right"), 80),
    (("dial", some "c1"), 82),
    (("dial", some "c2"), 84),
    (("dial", some "tall"), 86),
    (("dial", some "short"), 88),
    (("dial", some "top"), 90),
    (("dial", some "side"), 92) ]

/-- `_CONFIG_MESSAGE_TEMPLATE`: the 94-byte all-haptics-zero template. -/
def CONFIG_MESSAGE_TEMPLATE : List Nat :=
  [ 0xb5, 0x00, 0x5d, 0x04,
    0x00, 0x05, 0x00, 0x06, 0x00, 0x07, 0x00, 0x08, 0x00, 0x09, 0x00, 0x0b,
    0x00, 0x0c, 0x00, 0x0d,
    0x00, 0x0e, 0x00, 0x0f, 0x00, 0x26, 0x00, 0x27, 0x00, 0x28, 0x00, 0x29,
    0x00, 0x3b, 0x00, 0x3c, 0x00, 0x3d, 0x00, 0x3e,
    0x00, 0x3f, 0x00, 0x40, 0x00, 0x41, 0x00, 0x42, 0x00, 0x43, 0x00, 0x44,
    0x00, 0x45, 0x00, 0x46, 0x00, 0x47, 0x00, 0x48,
    0x00, 0x49, 0x00, 0x4a, 0x00, 0x4b, 0x00, 0x4c, 0x00, 0x4d, 0x00, 0x4e,
    0x00, 0x4f, 0x00, 0x50, 0x00, 0x51, 0x00, 0x52,
    0x00, 0x53, 0x00, 0x54, 0x00, 0xa8, 0x00, 0xa9, 0x00, 0xaa, 0x00, 0xab,
    0x00, 0xfe ]

/-- The loop body of `build_config_message`: walk the offset entries in
table order, writing `strength.value | speed.value` at each offset that
is in range. -/
def apply_haptic_offsets (cfg : HapticConfig) :
    List ((String × Option String) × Nat) → List Nat → List Nat
  | [], msg => msg
  | entry :: rest, msg =>
    let dial := entry.1.1
    let modifier := entry.1.2
    let off := entry.2
    let msg1 :=
      if off < msg.length then
        msg.set off (Nat.lor (cfg.getStrength dial modifier).value
                             (cfg.getSpeed dial modifier).value)
      else msg
    apply_haptic_offsets cfg rest msg1

/-- `build_config_message`: start from the template and, for every
`(dial, modifier)` entry of the offset table, write
`strength.value | speed.value` at that offset when it is in range. -/
def build_config_message (hapticConfig : Option HapticConfig) : List Nat :=
  apply_haptic_offsets (hapticConfig.getD HapticConfig.defaultOff)
    HAPTIC_BYTE_OFFSETS CONFIG_MESSAGE_TEMPLATE

/-! ## Profiles and window matching (`src/tuxbox/config_loader.py`) -/

/-- `WindowInfo` dataclass of `window_monitor.py` (string fields default
to the empty string). -/
structure WindowInfo where
  appId : String := ""
  title : String := ""
  wmClass : String := ""
deriving DecidableEq, Repr

/-- Python `str.lower()` modelled on ASCII codepoints. -/
def pyLower (s : String) : List Nat :=
  s.toList.map (fun c =>
    let n := c.toNat
    if 65 ≤ n ∧ n ≤ 90 then n + 32 else n)

/-- Python string codepoints, for codepoint-wise string comparison. -/
def pyStr (s : String) : List Nat := s.toList.map Char.toNat

/-- The `Profile` dataclass of `src/tuxbox/config_loader.py`, restricted
to the fields the driver core reads.  Action strings are represented by
their `parse_action` event lists; the comment fields (GUI metadata never
read by the driver core) are omitted. -/
structure Profile where
  name : String
  windowClass : Option String := none
  windowTitle : Option String := none
  appId : Option String := none
  mapping : List (Nat × List Ev) := []
  capabilities : List (Nat × List Nat) := []
  modifierButtons : List String := []
  modifierMappings : List ((String × String) × List Ev) := []
  modifierBaseActions : List (String × List Ev) := []
  hapticConfig : HapticConfig := HapticConfig.defaultOff
  enabled : Bool := true
  doubleClickTimeout : Int := 300
  doublePressActions : List (String × List Ev) := []
  onReleaseControls : List String := []
  modifierDelay : Option Nat := none
deriving DecidableEq, Repr

/-- `Profile.matches`: disabled profiles never match unless named
`default`; a missing observation never matches; otherwise `app_id` or
`window_class` must equal the observation case-insensitively, or
`window_title` must be a case-insensitive substring of the observed
title.  Python truthiness guards each matcher field and each observed
field (absent or empty strings are skipped). -/
def Profile.matches (p : Profile) (wi : Option WindowInfo) : Bool :=
  if ¬ p.enabled ∧ p.name ≠ "default" then false
  else
    match wi with
    | none => false
    | some w =>
      (match p.appId with
       | some s => s ≠ "" && (w.appId ≠ "" && decide (pyLower w.appId = pyLower s))
       | none => false) ||
      (match p.windowClass with
       | some s => s ≠ "" && (w.wmClass ≠ "" && decide (pyLower w.wmClass = pyLower s))
       | none => false) ||
      (match p.windowTitle with
       | some s => s ≠ "" && (w.title ≠ "" && decide (pyLower s <:+: pyLower w.title))
       | none => false)

/-! ## Profile file discovery order (`src/tourboxelite/profile_io.py`) -/

/-- Lexicographic less-or-equal on codepoint lists, the order Python
uses to compare strings (a proper prefix sorts first). -/
def natLexLe : List Nat → List Nat → Bool
  | [], _ => true
  | _ :: _, [] => false
  | a :: as, b :: bs => if a < b then true else if b < a then false else natLexLe as bs

/-- `sort_key` of `discover_profiles`: the pair of the empty string and
the stem when the stem is `default`, the pair of the string z and the
stem otherwise. -/
def sort_key (stem : String) : List Nat × List Nat :=
  if stem = "default" then ([], pyStr stem) else (pyStr "z", pyStr stem)

/-- Python tuple comparison on the sort keys. -/
def keyLe (a b : List Nat × List Nat) : Bool :=
  if a.1 = b.1 then natLexLe a.2 b.2 else natLexLe a.1 b.1

/-- The stem ordering induced by `sort_key`, the comparison Python
`sorted` applies in `discover_profiles`. -/
abbrev stem_le (p q : String) : Prop := keyLe (sort_key p) (sort_key q) = true

/-- `discover_profiles`, on the file stems found in the profiles
directory: a stable sort by `sort_key` ("Sort alphabetically, but put
default first"). -/
def discover_profiles (stems : List String) : List String :=
  List.insertionSort stem_le stems

/-! ## Driver state machine (`src/tourboxelite/device_base.py`) -/

/-- `BUTTON_CODES`: control name to `(press_byte, release_byte)`. -/
def BUTTON_CODES : List (String × Nat × Nat) :=
  [ ("side", 0x01, 0x81),
    ("top", 0x02, 0x82),
    ("scroll_click", 0x0a, 0x8a),
    ("c1", 0x22, 0xa2),
    ("c2", 0x23, 0xa3),
    ("tall", 0x00, 0x80),
    ("short", 0x03, 0x83),
    ("dpad_up", 0x10, 0x90),
    ("dpad_down", 0x11, 0x91),
    ("dpad_left", 0x12, 0x92),
    ("dpad_right", 0x13, 0x93),
    ("knob_click", 0x37, 0xb7),
    ("tour", 0x2a, 0xaa),
    ("dial_click", 0x38, 0xb8),
    ("scroll_up", 0x49, 0xc9),
    ("scroll_down", 0x09, 0x89),
    ("knob_cw", 0x44, 0xc4),
    ("knob_ccw", 0x04, 0x84),
    ("dial_cw", 0x4f, 0xcf),
    ("dial_ccw", 0x0f, 0x8f) ]

/-- `HOLDABLE_BUTTONS`: controls that can be held (all non-rotary). -/
def HOLDABLE_BUTTONS : List String :=
  ["side", "top", "short", "tall", "c1", "c2",
   "dpad_up", "dpad_down", "dpad_left", "dpad_right",
   "scroll_click", "knob_click", "dial_click", "tour"]

/-- The rotary control names, as listed inline throughout the source. -/
def ROTARY_CONTROLS : List String :=
  ["scroll_up", "scroll_down", "knob_cw", "knob_ccw", "dial_cw", "dial_ccw"]

/-- Helper for `get_control_name_from_code`: scan the code table. -/
def lookupButtonCode : List (String × Nat × Nat) → Nat → Option (String × Bool)
  | [], _ => none
  | (name, press, rel) :: rest, b =>
      if b = press then some (name, true)
      else if b = rel then some (name, false)
      else lookupButtonCode rest b

/-- `get_control_name_from_code`: map a raw byte to
`(control_name, is_press)`, or none when unknown. -/
def get_control_name_from_code (b : Nat) : Option (String × Bool) :=
  lookupButtonCode BUTTON_CODES b

/-- The transient and configuration state of `TourBoxBase` that the
event-resolution code reads and writes.  The virtual `UInput` device is
modelled by `controllerGen`, which increments whenever the code closes
and recreates the device; `currentProfile` is modelled as always
present (the driver sets it during startup before processing bytes). -/
structure DriverState where
  buttonCount : Nat := 0
  mapping : List (Nat × List Ev) := []
  capabilities : List (Nat × List Nat) := []
  profiles : List Profile := []
  currentProfile : Profile
  modifierButtons : List String := []
  activeModifiers : List String := []
  modifierMappings : List ((String × String) × List Ev) := []
  modifierBaseActions : List (String × List Ev) := []
  baseActionActive : List String := []
  comboUsed : List String := []
  activeButtonEvents : List (String × List Ev) := []
  activeComboEvents : List (String × List Ev) := []
  doubleClickFirstPress : List (String × Int) := []
  doubleClickActiveEvents : List (String × List Ev) := []
  onReleasePending : List (String × List Ev) := []
  onReleaseComboPending : List (String × (String × List Ev)) := []
  onReleaseModifierPending : List (String × List Ev) := []
  globalModifierDelay : Nat := 0
  modifierDelay : Nat := 0
  controllerGen : Nat := 0
deriving DecidableEq, Repr

/-- `is_modifier_button`. -/
def is_modifier_button (st : DriverState) (controlName : String) : Bool :=
  controlName ∈ st.modifierButtons

/-- A key-press event: `event_type == EV_KEY and value == 1`. -/
def isKeyPress (ev : Ev) : Bool := ev.typ == EV_KEY && ev.val == 1

/-- A press by value only: `value == 1` with no event-type check, as in
the base-action press filters of `process_button_code`. -/
def valIsPress (ev : Ev) : Bool := ev.val == 1

/-- A keyboard-modifier key press, as tested by `_send_events`. -/
def isModifierPress (ev : Ev) : Bool :=
  ev.typ == EV_KEY && ev.val == 1 && KEYBOARD_MODIFIER_KEYS.contains ev.code

/-- A `controller.write` call for one event tuple. -/
def writeEv (ev : Ev) : Out := Out.ev ev.typ ev.code ev.val

/-- `get_modified_action`: with exactly one active modifier, look up the
combo table at `(modifier, control)`. -/
def get_modified_action (st : DriverState) (controlName : String) :
    Option (List Ev) :=
  match st.activeModifiers with
  | [] => none
  | [m] => dGet st.modifierMappings (m, controlName)
  | _ => none

/-- `has_double_press_action`: the control has a double-press entry in
the current profile. -/
def has_double_press_action (st : DriverState) (controlName : String) : Bool :=
  dHas st.currentProfile.doublePressActions controlName

/-- Python truthiness of an optional event list (`None` and the empty
list are falsy). -/
def truthyEvents : Option (List Ev) → Bool
  | none => false
  | some a => decide (a ≠ [])

/-- `get_double_press_events`: the parsed double-press action for the
control, if configured. -/
def get_double_press_events (st : DriverState) (controlName : String) :
    Option (List Ev) :=
  dGet st.currentProfile.doublePressActions controlName

/-- `_send_events`: emit the events and a syn marker; with a positive
modifier delay and a mix of keyboard-modifier presses and other events,
emit the modifier presses, a syn, then the rest and a second syn. -/
def send_events (st : DriverState) (events : List Ev) : List Out :=
  if events = [] then []
  else if st.modifierDelay > 0 then
    let modifierPresses := events.filter isModifierPress
    let otherEvents := events.filter (fun ev => ! isModifierPress ev)
    if modifierPresses ≠ [] ∧ otherEvents ≠ [] then
      modifierPresses.map writeEv ++ [Out.syn] ++ otherEvents.map writeEv ++ [Out.syn]
    else events.map writeEv ++ [Out.syn]
  else events.map writeEv ++ [Out.syn]

/-- `_release_previous_buttons`: for every tracked held button other
than the new one, write a key-up for each of its tracked key presses
followed by a syn, and drop it from tracking. -/
def release_previous_buttons (st : DriverState) (newButton : String) :
    DriverState × List Out :=
  let others := st.activeButtonEvents.filter (fun kv => decide (kv.1 ≠ newButton))
  let out := others.foldl
    (fun acc kv =>
      acc ++ (kv.2.filter isKeyPress).map (fun ev => Out.ev ev.typ ev.code 0)
          ++ [Out.syn]) []
  ({ st with activeButtonEvents := st.activeButtonEvents.filter (fun kv => decide (kv.1 = newButton)) }, out)

/-- `process_button_code`: the event-resolution state machine.  `now` is
the wall-clock time in milliseconds and `b` the raw byte.  Returns the
new state and the ordered output written to the virtual device.  The
step numbering follows the comments in the source. -/
def process_button_code (st0 : DriverState) (now : Int) (b : Nat) :
    DriverState × List Out := Id.run do
  let mut st := { st0 with buttonCount := st0.buttonCount + 1 }
  let mut out : List Out := []
  let controlInfo := get_control_name_from_code b
  -- Step 0: double-click interception
  match controlInfo with
  | none => pure ()
  | some (controlName, isPress) =>
    let isRotary : Bool := decide (controlName ∈ ROTARY_CONTROLS)
    let isOnRelease : Bool := decide (controlName ∈ st.currentProfile.onReleaseControls)
    let hasActiveCombo : Bool := decide (st.activeModifiers ≠ []) &&
      truthyEvents (get_modified_action st controlName)
    if !isRotary && !isOnRelease && !hasActiveCombo &&
        has_double_press_action st controlName then
      if isPress then
        match dGet st.doubleClickFirstPress controlName with
        | some first =>
          if now - first < st.currentProfile.doubleClickTimeout then
            -- double-press detected: fire the double-press action
            st := { st with doubleClickFirstPress := dDel st.doubleClickFirstPress controlName }
            match get_double_press_events st controlName with
            | some doubleEvents =>
              if doubleEvents ≠ [] then
                if controlName ∈ HOLDABLE_BUTTONS then
                  let sr := release_previous_buttons st controlName
                  st := sr.1
                  out := out ++ sr.2
                  let pressEvents := doubleEvents.filter isKeyPress
                  if pressEvents ≠ [] then
                    st := { st with activeButtonEvents := dSet st.activeButtonEvents controlName pressEvents }
                st := { st with doubleClickActiveEvents := dSet st.doubleClickActiveEvents controlName doubleEvents }
                out := out ++ send_events st doubleEvents
            | none => pure ()
            return (st, out)
          else
            -- too slow: treat as a new first press
            st := { st with doubleClickFirstPress := dDel st.doubleClickFirstPress controlName }
        | none => pure ()
        -- first press: record timestamp, fire base action immediately
        st := { st with doubleClickFirstPress := dSet st.doubleClickFirstPress controlName now }
        if is_modifier_button st controlName then
          st := { st with activeModifiers := sAdd st.activeModifiers controlName }
          match dGet st.modifierBaseActions controlName with
          | some baseEvents =>
            let pressEvents := baseEvents.filter valIsPress
            out := out ++ send_events st pressEvents
            st := { st with baseActionActive := sAdd st.baseActionActive controlName }
          | none => pure ()
        else
          let baseEvents := (dGet st.mapping b).getD []
          if baseEvents ≠ [] then
            if controlName ∈ HOLDABLE_BUTTONS then
              let sr := release_previous_buttons st controlName
              st := sr.1
              out := out ++ sr.2
              let pressEvents := baseEvents.filter isKeyPress
              if pressEvents ≠ [] then
                st := { st with activeButtonEvents := dSet st.activeButtonEvents controlName pressEvents }
            out := out ++ send_events st baseEvents
        return (st, out)
      else
        -- release event for a button with a double-press action
        match dGet st.doubleClickActiveEvents controlName with
        | some doubleEvents =>
          st := { st with doubleClickActiveEvents := dDel st.doubleClickActiveEvents controlName }
          let releaseEvents :=
            (doubleEvents.filter isKeyPress).map (fun ev => Out.ev ev.typ ev.code 0)
          if releaseEvents ≠ [] then
            out := out ++ releaseEvents ++ [Out.syn]
          st := { st with activeButtonEvents := dDel st.activeButtonEvents controlName }
          return (st, out)
        | none => pure ()
        -- normal release: fall through to Step 4 to release the base action
  -- Step 2: modifier button handling
  match controlInfo with
  | none => pure ()
  | some (controlName, isPress) =>
    if is_modifier_button st controlName then
      let isOnReleaseModifier := controlName ∈ st.currentProfile.onReleaseControls
      if isPress ∧ isOnReleaseModifier ∧ dHas st.doubleClickFirstPress controlName then
        let first := (dGet st.doubleClickFirstPress controlName).getD 0
        if now - first < st.currentProfile.doubleClickTimeout then
          -- second press within timeout: fire double action as a tap
          st := { st with doubleClickFirstPress := dDel st.doubleClickFirstPress controlName }
          match get_double_press_events st controlName with
          | some dpEvents =>
            if dpEvents ≠ [] then
              out := out ++ send_events st dpEvents
              out := out ++ (dpEvents.filter isKeyPress).map
                (fun ev => Out.ev ev.typ ev.code 0) ++ [Out.syn]
          | none => pure ()
          st := { st with activeModifiers := sAdd st.activeModifiers controlName }
          return (st, out)
        else
          st := { st with doubleClickFirstPress := dDel st.doubleClickFirstPress controlName }
      if isPress ∧ st.activeModifiers ≠ [] then
        let modifiedAction := get_modified_action st controlName
        if truthyEvents modifiedAction then
          -- this modifier triggers a combo with an already-active
          -- modifier: fall through to Step 3
          pure ()
        else
          st := { st with activeModifiers := sAdd st.activeModifiers controlName }
          match dGet st.modifierBaseActions controlName with
          | some events =>
            if controlName ∈ st.currentProfile.onReleaseControls then
              st := { st with onReleaseModifierPending := dSet st.onReleaseModifierPending controlName events }
            else
              let pressEvents := events.filter valIsPress
              out := out ++ send_events st pressEvents
              st := { st with baseActionActive := sAdd st.baseActionActive controlName }
          | none => pure ()
          return (st, out)
      else if isPress then
        st := { st with activeModifiers := sAdd st.activeModifiers controlName }
        match dGet st.modifierBaseActions controlName with
        | some events =>
          if controlName ∈ st.currentProfile.onReleaseControls then
            st := { st with onReleaseModifierPending := dSet st.onReleaseModifierPending controlName events }
          else
            let pressEvents := events.filter valIsPress
            out := out ++ send_events st pressEvents
            st := { st with baseActionActive := sAdd st.baseActionActive controlName }
        | none => pure ()
        return (st, out)
      else
        -- modifier released
        if controlName ∈ st.activeModifiers then
          st := { st with activeModifiers := sDiscard st.activeModifiers controlName }
          match dGet st.onReleaseModifierPending controlName with
          | some events =>
            st := { st with onReleaseModifierPending := dDel st.onReleaseModifierPending controlName }
            if controlName ∉ st.comboUsed then
              -- fire base action as a tap
              out := out ++ send_events st events
              out := out ++ (events.filter isKeyPress).map
                (fun ev => Out.ev ev.typ ev.code 0) ++ [Out.syn]
              if dHas st.currentProfile.doublePressActions controlName then
                st := { st with doubleClickFirstPress := dSet st.doubleClickFirstPress controlName now }
            st := { st with comboUsed := sDiscard st.comboUsed controlName }
            return (st, out)
          | none => pure ()
          if controlName ∈ st.baseActionActive then
            let events := (dGet st.modifierBaseActions controlName).getD []
            out := out ++ (events.filter valIsPress).map
              (fun ev => Out.ev ev.typ ev.code 0) ++ [Out.syn]
            st := { st with baseActionActive := sDiscard st.baseActionActive controlName }
          st := { st with comboUsed := sDiscard st.comboUsed controlName }
          return (st, out)
        -- not tracked as a modifier: it was a combo target, fall
        -- through to Step 3
  -- Step 3: modified action (combo)
  match controlInfo with
  | none => pure ()
  | some (controlName, isPress) =>
    if ¬ isPress ∧ dHas st.onReleaseComboPending controlName then
      -- pending on_release combo: fire as a tap
      let pending := (dGet st.onReleaseComboPending controlName).getD ("", [])
      st := { st with onReleaseComboPending := dDel st.onReleaseComboPending controlName }
      out := out ++ send_events st pending.2
      out := out ++ (pending.2.filter isKeyPress).map
        (fun ev => Out.ev ev.typ ev.code 0) ++ [Out.syn]
      return (st, out)
    if ¬ isPress ∧ dHas st.activeComboEvents controlName then
      -- release via tracked combo events
      let trackedEvents := (dGet st.activeComboEvents controlName).getD []
      st := { st with activeComboEvents := dDel st.activeComboEvents controlName }
      let eventsToSend := trackedEvents.map (fun ev =>
        if isKeyPress ev then Out.ev ev.typ ev.code 0 else writeEv ev)
      out := out ++ eventsToSend ++ [Out.syn]
      return (st, out)
    match get_modified_action st controlName with
    | some modifiedAction =>
      if modifiedAction ≠ [] then
        let modifierName := st.activeModifiers.headI
        if isPress then
          if controlName ∈ st.currentProfile.onReleaseControls then
            -- defer combo to release
            st := { st with onReleaseComboPending := dSet st.onReleaseComboPending controlName (modifierName, modifiedAction) }
            st := { st with doubleClickFirstPress := dDel st.doubleClickFirstPress modifierName }
            if modifierName ∈ st.baseActionActive then
              let baseEvents := (dGet st.modifierBaseActions modifierName).getD []
              out := out ++ (baseEvents.filter valIsPress).map
                (fun ev => Out.ev ev.typ ev.code 0) ++ [Out.syn]
              st := { st with baseActionActive := sDiscard st.baseActionActive modifierName }
            st := { st with comboUsed := sAdd st.comboUsed modifierName }
            return (st, out)
          st := { st with doubleClickFirstPress := dDel st.doubleClickFirstPress modifierName }
          if modifierName ∈ st.baseActionActive then
            -- cancel the base action before asserting the combo
            let baseEvents := (dGet st.modifierBaseActions modifierName).getD []
            out := out ++ (baseEvents.filter valIsPress).map
              (fun ev => Out.ev ev.typ ev.code 0) ++ [Out.syn]
            st := { st with baseActionActive := sDiscard st.baseActionActive modifierName }
          st := { st with comboUsed := sAdd st.comboUsed modifierName }
          st := { st with activeComboEvents := dSet st.activeComboEvents controlName modifiedAction }
          out := out ++ send_events st modifiedAction
          return (st, out)
        else
          st := { st with activeComboEvents := dDel st.activeComboEvents controlName }
          let eventsToSend := modifiedAction.map (fun ev =>
            if isKeyPress ev then { ev with val := 0 } else ev)
          out := out ++ send_events st eventsToSend
          return (st, out)
    | none => pure ()
  -- Step 4: normal action
  let mapping := (dGet st.mapping b).getD []
  if mapping ≠ [] then
    match controlInfo with
    | some (controlName, isPress) =>
      if controlName ∈ st.currentProfile.onReleaseControls then
        if isPress then
          match dGet st.doubleClickFirstPress controlName with
          | some first =>
            if now - first < st.currentProfile.doubleClickTimeout then
              -- second press within timeout: fire double action as a tap
              st := { st with doubleClickFirstPress := dDel st.doubleClickFirstPress controlName }
              match get_double_press_events st controlName with
              | some doubleEvents =>
                if doubleEvents ≠ [] then
                  out := out ++ send_events st doubleEvents
                  let releaseEvents := (doubleEvents.filter isKeyPress).map
                    (fun ev => Out.ev ev.typ ev.code 0)
                  if releaseEvents ≠ [] then
                    out := out ++ releaseEvents ++ [Out.syn]
              | none => pure ()
              return (st, out)
            else
              st := { st with doubleClickFirstPress := dDel st.doubleClickFirstPress controlName }
          | none => pure ()
          -- first press: defer press events until release
          let pressEvents := mapping.filter (fun ev =>
            (ev.typ == EV_KEY && ev.val == 1) || ev.typ == EV_REL)
          if pressEvents ≠ [] then
            st := { st with onReleasePending := dSet st.onReleasePending controlName pressEvents }
          return (st, out)
        else
          match dGet st.onReleasePending controlName with
          | some pendingEvents =>
            st := { st with onReleasePending := dDel st.onReleasePending controlName }
            -- fire the deferred action as a tap
            let pressEvents := pendingEvents.filterMap (fun ev =>
              if ev.typ == EV_KEY then some { ev with val := 1 }
              else if ev.typ == EV_REL then some ev
              else none)
            out := out ++ send_events st pressEvents
            out := out ++ (pendingEvents.filter (fun ev => ev.typ == EV_KEY)).map
              (fun ev => Out.ev ev.typ ev.code 0) ++ [Out.syn]
            if has_double_press_action st controlName then
              st := { st with doubleClickFirstPress := dSet st.doubleClickFirstPress controlName now }
            return (st, out)
          | none =>
            return (st, out)
      -- last-wins behaviour for holdable buttons
      if controlName ∈ HOLDABLE_BUTTONS then
        if isPress then
          let sr := release_previous_buttons st controlName
          st := sr.1
          out := out ++ sr.2
          let pressEvents := mapping.filter isKeyPress
          if pressEvents ≠ [] then
            st := { st with activeButtonEvents := dSet st.activeButtonEvents controlName pressEvents }
        else
          st := { st with activeButtonEvents := dDel st.activeButtonEvents controlName }
      out := out ++ send_events st mapping
      return (st, out)
    | none =>
      out := out ++ send_events st mapping
      return (st, out)
  -- unknown button code: logged and ignored
  return (st, out)

/-- `switch_profile` helper: the combo action strings are parsed and,
for rotary combo targets, a release cycle is appended. -/
def convert_modifier_mappings (mm : List ((String × String) × List Ev)) :
    List ((String × String) × List Ev) :=
  mm.map (fun kv =>
    if kv.1.2 ∈ ROTARY_CONTROLS then
      (kv.1, kv.2 ++ (kv.2.filter (fun ev => ev.typ == EV_KEY)).map
        (fun ev => { ev with val := 0 }))
    else kv)

/-- `switch_profile`: no-op when the profile equals the current one;
otherwise install the new mapping and modifier tables, clear every
transient session map, resolve the modifier delay, and recreate the
virtual device when the capability set changed. -/
def switch_profile (st : DriverState) (profile : Profile) : DriverState :=
  if profile = st.currentProfile then st
  else
    let st1 := { st with
      currentProfile := profile
      mapping := profile.mapping
      modifierButtons := profile.modifierButtons
      activeModifiers := []
      baseActionActive := []
      comboUsed := []
      activeButtonEvents := []
      activeComboEvents := []
      onReleasePending := []
      onReleaseComboPending := []
      onReleaseModifierPending := []
      doubleClickFirstPress := []
      doubleClickActiveEvents := []
      modifierMappings := convert_modifier_mappings profile.modifierMappings
      modifierBaseActions := profile.modifierBaseActions
      modifierDelay := profile.modifierDelay.getD st.globalModifierDelay }
    if profile.capabilities ≠ st1.capabilities then
      { st1 with capabilities := profile.capabilities,
                 controllerGen := st1.controllerGen + 1 }
    else st1

/-- `clear_modifier_state`: called on disconnect; clears the modifier,
base-action, combo-used, last-wins, active-combo and double-click
state.  The three deferred on-release maps are not touched. -/
def clear_modifier_state (st : DriverState) : DriverState :=
  { st with
    activeModifiers := []
    baseActionActive := []
    comboUsed := []
    activeButtonEvents := []
    activeComboEvents := []
    doubleClickFirstPress := []
    doubleClickActiveEvents := [] }

/-- `reload_config_mappings`, with the results of `load_profiles` and
`load_device_config` passed as arguments (they are file input).  A
reload yielding no profiles returns with the state unchanged; otherwise
the profile list is replaced and the current profile re-resolved by
name, falling back to the profile named `default` and then to the first
profile. -/
def reload_config_mappings (st : DriverState) (newProfiles : List Profile)
    (newGlobalModifierDelay : Nat) : DriverState :=
  let currentProfileName := st.currentProfile.name
  match newProfiles with
  | [] => st
  | p0 :: _ =>
    let st1 := { st with
      profiles := newProfiles
      globalModifierDelay := newGlobalModifierDelay }
    let newCurrent : Profile :=
      match newProfiles.find? (fun p => decide (p.name = currentProfileName)) with
      | some p => p
      | none =>
        (newProfiles.find? (fun p => decide (p.name = "default"))).getD p0
    let st2 := { st1 with
      currentProfile := newCurrent
      mapping := newCurrent.mapping
      modifierButtons := newCurrent.modifierButtons
      activeModifiers := []
      modifierMappings := convert_modifier_mappings newCurrent.modifierMappings
      modifierBaseActions := newCurrent.modifierBaseActions
      modifierDelay := newCurrent.modifierDelay.getD newGlobalModifierDelay }
    if newCurrent.capabilities ≠ st2.capabilities then
      { st2 with capabilities := newCurrent.capabilities,
                 controllerGen := st2.controllerGen + 1 }
    else st2

/-- `on_window_change`: switch to the first profile in list order that
matches the observation; when none matches, switch to the profile named
`default` if it exists, else keep the current profile.  (The haptic
config transmission is a transport side effect with no state change.) -/
def on_window_change (st : DriverState) (wi : Option WindowInfo) : DriverState :=
  match st.profiles.find? (fun p => p.matches wi) with
  | some p => if p ≠ st.currentProfile then switch_profile st p else st
  | none =>
    match st.profiles.find? (fun p => decide (p.name = "default")) with
    | some d => if d ≠ st.currentProfile then switch_profile st d else st
    | none => st

/-- `create_button_mapping` of `src/tuxbox/config_loader.py`, on parsed
action events: when no release action is given, the release list is
auto-generated with one key-up per EV_KEY entry of the press list (REL
events get no release). -/
def create_button_mapping (pressEvents : List Ev)
    (releaseAction : Option (List Ev)) : List Ev × List Ev :=
  match releaseAction with
  | none =>
    (pressEvents,
     (pressEvents.filter (fun ev => ev.typ == EV_KEY)).map
       (fun ev => { ev with val := 0 }))
  | some rel => (pressEvents, rel)

/-! ## BLE reconnect backoff (`src/tuxbox/device_ble.py`) -/

/-- `self.reconnect_delay = 5.0` in `TuxBoxBLE.__init__`. -/
def INITIAL_RECONNECT_DELAY : ℚ := 5

/-- Effect of `run_connection` on the stored reconnect delay: a
successful connection resets it to 5.0 before the session loop; a
failed attempt leaves it unchanged. -/
def runConnectionDelay (connected : Bool) (d : ℚ) : ℚ :=
  if connected then 5 else d

/-- The wait performed at the bottom of the `start` loop:
`delay = min(self.reconnect_delay, 10.0)`. -/
def reconnectWait (d : ℚ) : ℚ := min d 10

/-- The delay update after the wait:
`self.reconnect_delay = min(self.reconnect_delay * 1.5, 10.0)`. -/
def nextReconnectDelay (d : ℚ) : ℚ := min (d * (3 / 2)) 10

/-- Waits performed by the `start` reconnect loop for a sequence of
attempt outcomes (`true` = connected then later disconnected, `false` =
attempt failed), starting from stored delay `d`. -/
def reconnectWaits (d : ℚ) : List Bool → List ℚ
  | [] => []
  | connected :: rest =>
    let d1 := runConnectionDelay connected d
    reconnectWait d1 :: reconnectWaits (nextReconnectDelay d1) rest

/-! ## Specification-side definitions

The following definitions follow the wording of the specification
claims (not the source); they exist to be compared with the
source-derived definitions above. -/

/-- Strength bits as the spec claims them to be resolved: per-combo
override, then per-dial override, then profile global, then OFF. -/
def spec_strength_bits (cfg : HapticConfig) (dial : String)
    (modifier : Option String) : Nat :=
  match dGet cfg.comboSettings (dial, modifier) with
  | some s => s.value
  | none =>
    match dGet cfg.dialSettings dial with
    | some s => s.value
    | none => (cfg.globalSetting.getD .off).value

/-- Speed bits as the spec claims them to be resolved for every pair:
per-combo override, then per-dial override, then profile global, then
FAST. -/
def spec_speed_bits (cfg : HapticConfig) (dial : String)
    (modifier : Option String) : Nat :=
  match dGet cfg.comboSpeedSettings (dial, modifier) with
  | some s => s.value
  | none =>
    match dGet cfg.dialSpeedSettings dial with
    | some s => s.value
    | none => (cfg.globalSpeed.getD .fast).value

/-- Speed bits under the amended claim: the combo level applies only to
modified pairs; the unmodified pair starts at the per-dial level. -/
def spec_speed_bits_amended (cfg : HapticConfig) (dial : String)
    (modifier : Option String) : Nat :=
  match modifier with
  | some _ => spec_speed_bits cfg dial modifier
  | none =>
    match dGet cfg.dialSpeedSettings dial with
    | some s => s.value
    | none => (cfg.globalSpeed.getD .fast).value

/-- The matcher test of `Profile.matches` once the enabled gate has
passed: `app_id` or `window_class` equal case-insensitively, or
`window_title` a case-insensitive substring of the observed title. -/
def spec_matcher_hit (p : Profile) (w : WindowInfo) : Bool :=
  (match p.appId with
   | some s => s ≠ "" && (w.appId ≠ "" && decide (pyLower w.appId = pyLower s))
   | none => false) ||
  (match p.windowClass with
   | some s => s ≠ "" && (w.wmClass ≠ "" && decide (pyLower w.wmClass = pyLower s))
   | none => false) ||
  (match p.windowTitle with
   | some s => s ≠ "" && (w.title ≠ "" && decide (pyLower s <:+: pyLower w.title))
   | none => false)

/-- Profile iteration order as the claim describes it: plain
name-sorted order (under which `default` is not forced to the front). -/
def spec_name_sorted (ps : List Profile) : List Profile :=
  List.insertionSort (fun p q => natLexLe (pyStr p.name) (pyStr q.name) = true) ps

/-- Profile selection as the claim describes it: the first profile in
name-sorted order whose enabled flag is true and whose matchers hit. -/
def spec_claim_select (ps : List Profile) (wi : Option WindowInfo) :
    Option Profile :=
  (spec_name_sorted ps).find? (fun p => p.enabled && p.matches wi)

/-! ## Concrete scenario data used by the claim theorems -/

/-- Parsed events of the action string KEY_LEFTCTRL+KEY_C. -/
def ctrlC_press : List Ev := [⟨EV_KEY, KEY_LEFTCTRL, 1⟩, ⟨EV_KEY, KEY_C, 1⟩]

/-- Auto-generated release events of KEY_LEFTCTRL+KEY_C. -/
def ctrlC_release : List Ev := [⟨EV_KEY, KEY_LEFTCTRL, 0⟩, ⟨EV_KEY, KEY_C, 0⟩]

/-- Parsed events of the action string KEY_LEFTSHIFT+KEY_V. -/
def shiftV_press : List Ev := [⟨EV_KEY, KEY_LEFTSHIFT, 1⟩, ⟨EV_KEY, KEY_V, 1⟩]

/-- Auto-generated release events of KEY_LEFTSHIFT+KEY_V. -/
def shiftV_release : List Ev := [⟨EV_KEY, KEY_LEFTSHIFT, 0⟩, ⟨EV_KEY, KEY_V, 0⟩]

/-- Profile for the last-wins scenario: `side` is mapped to Ctrl+C and
`top` to Shift+V; neither is a modifier or flagged on-release. -/
def lastWinsProfile : Profile := {
  name := "default"
  mapping := [(0x01, ctrlC_press), (0x81, ctrlC_release),
              (0x02, shiftV_press), (0x82, shiftV_release)] }

/-- Clean driver state running `lastWinsProfile`. -/
def lastWinsStart : DriverState :=
  { currentProfile := lastWinsProfile, mapping := lastWinsProfile.mapping }

/-- Processing the press byte of `side` (button A). -/
def lastWinsAfterA : DriverState × List Out :=
  process_button_code lastWinsStart 0 0x01

/-- Then processing the press byte of `top` (button B) before A is
released. -/
def lastWinsAfterB : DriverState × List Out :=
  process_button_code lastWinsAfterA.1 1 0x02

/-- Then processing the release byte of `side`. -/
def lastWinsAfterARelease : DriverState × List Out :=
  process_button_code lastWinsAfterB.1 2 0x81

/-- An uninterrupted cycle: release `side` directly after its press. -/
def cleanCycleRelease : DriverState × List Out :=
  process_button_code lastWinsAfterA.1 1 0x81

/-- Profile for the double-press scenario: `side` maps to KEY_A with a
double-press action KEY_B and the default 300 ms timeout. -/
def doublePressProfile : Profile := {
  name := "default"
  mapping := [(0x01, [⟨EV_KEY, KEY_A, 1⟩]), (0x81, [⟨EV_KEY, KEY_A, 0⟩])]
  doublePressActions := [("side", [⟨EV_KEY, KEY_B, 1⟩])] }

/-- Clean driver state running `doublePressProfile`. -/
def doublePressStart : DriverState :=
  { currentProfile := doublePressProfile, mapping := doublePressProfile.mapping }

/-- First press of `side` at t = 0 ms. -/
def dpFirstPress : DriverState × List Out :=
  process_button_code doublePressStart 0 0x01

/-- Release of `side` at t = 100 ms. -/
def dpFirstRelease : DriverState × List Out :=
  process_button_code dpFirstPress.1 100 0x81

/-- Second press at t = 200 ms, inside the 300 ms timeout. -/
def dpFastSecondPress : DriverState × List Out :=
  process_button_code dpFirstRelease.1 200 0x01

/-- Second press at t = 400 ms, after the 300 ms timeout. -/
def dpSlowSecondPress : DriverState × List Out :=
  process_button_code dpFirstRelease.1 400 0x01

/-- Profile for the modifier-combo scenario: `tall` is a modifier with
base action KEY_LEFTSHIFT, and the combo (tall, side) is KEY_LEFTCTRL. -/
def comboProfile : Profile := {
  name := "default"
  modifierButtons := ["tall"]
  modifierBaseActions := [("tall", [⟨EV_KEY, KEY_LEFTSHIFT, 1⟩])]
  modifierMappings := [(("tall", "side"), [⟨EV_KEY, KEY_LEFTCTRL, 1⟩])] }

/-- State after switching a clean driver to `comboProfile`. -/
def comboStart : DriverState :=
  switch_profile { currentProfile := { name := "boot" } } comboProfile

/-- Pressing the modifier `tall` (byte 0x00). -/
def comboAfterM : DriverState × List Out :=
  process_button_code comboStart 0 0x00

/-- Then pressing the combo target `side`. -/
def comboAfterC : DriverState × List Out :=
  process_button_code comboAfterM.1 1 0x01

/-- Then releasing the modifier `tall` while combo-used holds. -/
def comboAfterMRelease : DriverState × List Out :=
  process_button_code comboAfterC.1 2 0x80

/-- A state with every transient session collection non-empty, used to
examine the two reset operations. -/
def residualState : DriverState := {
  currentProfile := comboProfile
  modifierButtons := ["tall"]
  activeModifiers := ["tall"]
  modifierMappings := [(("tall", "side"), [⟨EV_KEY, KEY_LEFTCTRL, 1⟩])]
  modifierBaseActions := [("tall", [⟨EV_KEY, KEY_LEFTSHIFT, 1⟩])]
  baseActionActive := ["tall"]
  comboUsed := ["tall"]
  activeButtonEvents := [("top", shiftV_press)]
  activeComboEvents := [("side", [⟨EV_KEY, KEY_LEFTCTRL, 1⟩])]
  doubleClickFirstPress := [("side", 0)]
  doubleClickActiveEvents := [("side", [⟨EV_KEY, KEY_B, 1⟩])]
  onReleasePending := [("side", [⟨EV_KEY, KEY_A, 1⟩])]
  onReleaseComboPending := [("c1", ("tall", [⟨EV_KEY, KEY_Z, 1⟩]))]
  onReleaseModifierPending := [("tall", [⟨EV_KEY, KEY_LEFTSHIFT, 1⟩])] }

/-- Haptic configuration of the spec scenario: dial `knob` has strength
STRONG and speed SLOW, nothing else is set. -/
def knobStrongSlow : HapticConfig := {
  dialSettings := [("knob", .strong)]
  dialSpeedSettings := [("knob", .slow)] }

/-- Haptic configuration whose only setting is a per-combo speed
override on the unmodified `knob` pair. -/
def knobNoneComboSpeed : HapticConfig := {
  comboSpeedSettings := [(("knob", none), .slow)] }

/-- Window observation with app id `x`. -/
def wiX : WindowInfo := { appId := "x" }

/-- Profile named `default` matching app id `x`. -/
def defaultMatchesX : Profile := { name := "default", appId := some "x" }

/-- Profile named `alpha` matching app id `x`. -/
def alphaMatchesX : Profile := { name := "alpha", appId := some "x" }

/-- Driver state whose profile list is in the order `discover_profiles`
produces for the stems `alpha` and `default`: default first. -/
def matchScenarioState : DriverState := {
  currentProfile := { name := "boot" }
  profiles := [defaultMatchesX, alphaMatchesX] }

/-- Default profile value, for `List.headI` on profile lists. -/
instance : Inhabited Profile := ⟨{ name := "" }⟩

/-! ## Theorems -/

set_option maxRecDepth 16000

/-- C1 counterexample: a transport disconnect runs
`clear_modifier_state`, which leaves all three deferred on-release maps
non-empty on a state where they hold residual entries, so the claim
that either reset operation empties them is false. -/
theorem claim_C1_counterexample :
    (clear_modifier_state residualState).onReleasePending ≠ [] ∧
    (clear_modifier_state residualState).onReleaseComboPending ≠ [] ∧
    (clear_modifier_state residualState).onReleaseModifierPending ≠ [] := by
  decide

/-- C1 amended: switching to a different profile empties every listed
transient collection, including the three deferred on-release maps;
`clear_modifier_state` (run on transport disconnect) empties the
active-modifier, base-action-live, combo-used, last-wins, active-combo
and both double-press collections but leaves the three deferred
on-release maps exactly as they were. -/
theorem claim_C1_amended (s : DriverState) (p : Profile)
    (h : p ≠ s.currentProfile) :
    ((switch_profile s p).activeModifiers = [] ∧
     (switch_profile s p).baseActionActive = [] ∧
     (switch_profile s p).comboUsed = [] ∧
     (switch_profile s p).activeButtonEvents = [] ∧
     (switch_profile s p).activeComboEvents = [] ∧
     (switch_profile s p).doubleClickFirstPress = [] ∧
     (switch_profile s p).doubleClickActiveEvents = [] ∧
     (switch_profile s p).onReleasePending = [] ∧
     (switch_profile s p).onReleaseComboPending = [] ∧
     (switch_profile s p).onReleaseModifierPending = []) ∧
    ((clear_modifier_state s).activeModifiers = [] ∧
     (clear_modifier_state s).baseActionActive = [] ∧
     (clear_modifier_state s).comboUsed = [] ∧
     (clear_modifier_state s).activeButtonEvents = [] ∧
     (clear_modifier_state s).activeComboEvents = [] ∧
     (clear_modifier_state s).doubleClickFirstPress = [] ∧
     (clear_modifier_state s).doubleClickActiveEvents = [] ∧
     (clear_modifier_state s).onReleasePending = s.onReleasePending ∧
     (clear_modifier_state s).onReleaseComboPending = s.onReleaseComboPending ∧
     (clear_modifier_state s).onReleaseModifierPending = s.onReleaseModifierPending) := by
  constructor
  · simp only [switch_profile, if_neg h]
    split <;> simp
  · simp [clear_modifier_state]

/-- C1 witness: the amended theorem applied to the residual state and a
different profile. -/
theorem claim_C1_witness :
    (switch_profile residualState lastWinsProfile).onReleasePending = [] ∧
    (clear_modifier_state residualState).activeModifiers = [] ∧
    (clear_modifier_state residualState).onReleasePending =
      residualState.onReleasePending := by
  have h := claim_C1_amended residualState lastWinsProfile (by decide)
  exact ⟨h.1.2.2.2.2.2.2.2.1, h.2.1, h.2.2.2.2.2.2.2.2.1⟩

/-- C3 confirmed: pressing `side` (Ctrl+C) emits its press events and
tracks them; pressing `top` (Shift+V) before the release first emits
key-ups for every key `side` asserted, drops `side` from tracking, and
only then emits and tracks `top`. -/
theorem claim_C3_last_wins :
    lastWinsAfterA.2 =
      [Out.ev EV_KEY KEY_LEFTCTRL 1, Out.ev EV_KEY KEY_C 1, Out.syn] ∧
    lastWinsAfterB.2 =
      [Out.ev EV_KEY KEY_LEFTCTRL 0, Out.ev EV_KEY KEY_C 0, Out.syn,
       Out.ev EV_KEY KEY_LEFTSHIFT 1, Out.ev EV_KEY KEY_V 1, Out.syn] ∧
    lastWinsAfterA.1.activeButtonEvents = [("side", ctrlC_press)] ∧
    lastWinsAfterB.1.activeButtonEvents = [("top", shiftV_press)] := by
  decide

/-- C4 confirmed: a second press of `side` 200 ms after the first fires
the single action KEY_A exactly once (immediately at the first press)
and the double action KEY_B exactly once (at the second press); a
second press after 400 ms fires KEY_A twice and never KEY_B. -/
theorem claim_C4_double_press :
    dpFirstPress.2 = [Out.ev EV_KEY KEY_A 1, Out.syn] ∧
    dpFastSecondPress.2 = [Out.ev EV_KEY KEY_B 1, Out.syn] ∧
    (dpFirstPress.2 ++ dpFirstRelease.2 ++ dpFastSecondPress.2).count
      (Out.ev EV_KEY KEY_A 1) = 1 ∧
    (dpFirstPress.2 ++ dpFirstRelease.2 ++ dpFastSecondPress.2).count
      (Out.ev EV_KEY KEY_B 1) = 1 ∧
    dpSlowSecondPress.2 = [Out.ev EV_KEY KEY_A 1, Out.syn] ∧
    (dpFirstPress.2 ++ dpFirstRelease.2 ++ dpSlowSecondPress.2).count
      (Out.ev EV_KEY KEY_A 1) = 2 ∧
    (dpFirstPress.2 ++ dpFirstRelease.2 ++ dpSlowSecondPress.2).count
      (Out.ev EV_KEY KEY_B 1) = 0 := by
  decide

/-- C5 confirmed: with modifier `tall` held and its base action
KEY_LEFTSHIFT live, pressing combo target `side` emits exactly one
release of the base action, marks `tall` combo-used, and only then
emits the combo press KEY_LEFTCTRL; releasing `tall` afterwards emits
nothing. -/
theorem claim_C5_modifier_combo :
    comboAfterM.2 = [Out.ev EV_KEY KEY_LEFTSHIFT 1, Out.syn] ∧
    comboAfterC.2 = [Out.ev EV_KEY KEY_LEFTSHIFT 0, Out.syn,
                     Out.ev EV_KEY KEY_LEFTCTRL 1, Out.syn] ∧
    comboAfterC.1.comboUsed = ["tall"] ∧
    comboAfterC.1.baseActionActive = [] ∧
    comboAfterMRelease.2 = [] := by
  decide

/-- C9 confirmed: switching to a profile equal to the current one
returns the state entirely unchanged: no session-state mutation, no
mapping, capability or modifier-table change, and no virtual-device
recreation. -/
theorem claim_C9_switch_noop (s : DriverState) (p : Profile)
    (h : p = s.currentProfile) : switch_profile s p = s := by
  simp [switch_profile, h]

/-- C9 witness: the no-op applied to a concrete state and its current
profile. -/
theorem claim_C9_witness :
    switch_profile lastWinsStart lastWinsProfile = lastWinsStart :=
  claim_C9_switch_noop lastWinsStart lastWinsProfile rfl

/-- C10 confirmed: a reload yielding zero profiles returns the state
entirely unchanged (profile list, current profile, mapping, modifier
tables, capabilities and virtual device included); a reload yielding at
least one profile replaces the profile list and re-resolves the current
profile by name, falling back to the profile named `default` and then
to the first profile. -/
theorem claim_C10_reload (st : DriverState) (newProfiles : List Profile)
    (d : Nat) :
    reload_config_mappings st [] d = st ∧
    (newProfiles ≠ [] →
      (reload_config_mappings st newProfiles d).profiles = newProfiles ∧
      (reload_config_mappings st newProfiles d).currentProfile =
        ((newProfiles.find?
            (fun p => decide (p.name = st.currentProfile.name))).getD
          ((newProfiles.find? (fun p => decide (p.name = "default"))).getD
            newProfiles.headI))) := by
  constructor
  · rfl
  · intro h
    rcases newProfiles with _ | ⟨p0, rest⟩
    · exact absurd rfl h
    · unfold reload_config_mappings
      cases hf : (p0 :: rest).find?
          (fun p => decide (p.name = st.currentProfile.name)) with
      | some p => simp only [hf]; constructor <;> · split <;> simp
      | none => simp only [hf, List.headI]; constructor <;> · split <;> simp

/-- C10 witness: the reload theorem applied to a concrete state with an
empty and a singleton profile list. -/
theorem claim_C10_witness :
    reload_config_mappings residualState [] 0 = residualState ∧
    (reload_config_mappings residualState [lastWinsProfile] 0).profiles =
      [lastWinsProfile] := by
  have h := claim_C10_reload residualState [lastWinsProfile] 0
  exact ⟨h.1, (h.2 (by decide)).1⟩

/-- C2 counterexample: `side` is holdable, not a modifier and not
on-release, and its press emits exactly one KEY_LEFTCTRL key-down; but
in the edge sequence side-press, top-press, side-release, two
KEY_LEFTCTRL key-ups are emitted by the time the release byte has been
processed (one from last-wins, one from the release mapping), so
"matched by exactly one key-up" fails for this sequence. -/
theorem claim_C2_counterexample :
    lastWinsAfterA.2.count (Out.ev EV_KEY KEY_LEFTCTRL 1) = 1 ∧
    (lastWinsAfterA.2 ++ lastWinsAfterB.2 ++ lastWinsAfterARelease.2).count
      (Out.ev EV_KEY KEY_LEFTCTRL 0) = 2 := by
  decide

/-- Helper for C2: counting key-ups in the auto-generated release list
of `create_button_mapping`. -/
theorem count_auto_release (evs : List Ev) (c : Nat) :
    ((evs.filter (fun ev => ev.typ == EV_KEY)).map
        (fun ev => { ev with val := 0 })).count (⟨EV_KEY, c, 0⟩ : Ev) =
      (evs.filter (fun ev => ev.typ == EV_KEY && ev.code == c)).length := by
  induction evs with
  | nil => rfl
  | cons e t ih =>
    obtain ⟨et, ec, evv⟩ := e
    by_cases h1 : et = EV_KEY
    · by_cases h2 : ec = c
      · simp [h1, h2, List.count_cons, ih]
      · simp [h1, h2, List.count_cons, ih]
    · simp [h1, ih]

/-- C2 amended: the auto-generated release mapping contains exactly one
key-up per EV_KEY entry of the press action (per key code) and nothing
but key-ups, so an uninterrupted press-release cycle of a holdable,
non-modifier, non-on-release control emits exactly one key-down and one
key-up per key code, as the concrete `side` cycle shows; only when
another holdable control is pressed inside the cycle does last-wins add
an extra, earlier key-up (see the counterexample). -/
theorem claim_C2_amended :
    (∀ (evs : List Ev) (c : Nat),
      (create_button_mapping evs none).2.count (⟨EV_KEY, c, 0⟩ : Ev) =
        (evs.filter (fun ev => ev.typ == EV_KEY && ev.code == c)).length) ∧
    (∀ (evs : List Ev), ∀ ev ∈ (create_button_mapping evs none).2,
      ev.val = 0 ∧ ev.typ = EV_KEY) ∧
    lastWinsAfterA.2 =
      [Out.ev EV_KEY KEY_LEFTCTRL 1, Out.ev EV_KEY KEY_C 1, Out.syn] ∧
    cleanCycleRelease.2 =
      [Out.ev EV_KEY KEY_LEFTCTRL 0, Out.ev EV_KEY KEY_C 0, Out.syn] ∧
    (lastWinsAfterA.2 ++ cleanCycleRelease.2).count
      (Out.ev EV_KEY KEY_LEFTCTRL 1) = 1 ∧
    (lastWinsAfterA.2 ++ cleanCycleRelease.2).count
      (Out.ev EV_KEY KEY_LEFTCTRL 0) = 1 ∧
    (lastWinsAfterA.2 ++ cleanCycleRelease.2).count
      (Out.ev EV_KEY KEY_C 1) = 1 ∧
    (lastWinsAfterA.2 ++ cleanCycleRelease.2).count
      (Out.ev EV_KEY KEY_C 0) = 1 := by
  refine ⟨fun evs c => count_auto_release evs c, ?_,
    by decide, by decide, by decide, by decide, by decide, by decide⟩
  intro evs ev h
  simp only [create_button_mapping, List.mem_map, List.mem_filter] at h
  obtain ⟨a, ⟨_, ha⟩, rfl⟩ := h
  exact ⟨rfl, by simpa using ha⟩

/-- C2 witness: the amended theorem applied to the Ctrl+C press action
and the key code KEY_LEFTCTRL. -/
theorem claim_C2_witness :
    (create_button_mapping ctrlC_press none).2.count
      (⟨EV_KEY, KEY_LEFTCTRL, 0⟩ : Ev) = 1 ∧
    (∀ ev ∈ (create_button_mapping ctrlC_press none).2, ev.val = 0) := by
  constructor
  · rw [claim_C2_amended.1 ctrlC_press KEY_LEFTCTRL]
    decide
  · intro ev h
    exact (claim_C2_amended.2.1 ctrlC_press ev h).1

/-- C7 confirmed: from the initial 5 s delay, three consecutive failed
attempts wait 5 s, 7.5 s and 10 s; once the stored delay is at the cap,
every further consecutive failure waits 10 s; and a successful
connection resets the stored delay to 5 s, so the wait that follows the
successful session is 5 s again. -/
theorem claim_C7_backoff :
    reconnectWaits INITIAL_RECONNECT_DELAY [false, false, false] =
      [5, 15 / 2, 10] ∧
    (∀ n : Nat, reconnectWaits 10 (List.replicate n false) =
      List.replicate n (10 : ℚ)) ∧
    (∀ d : ℚ, reconnectWait (runConnectionDelay true d) = 5) ∧
    (∀ (d : ℚ) (rest : List Bool),
      reconnectWaits d (true :: rest) = 5 :: reconnectWaits (15 / 2) rest) := by
  refine ⟨?_, ?_, ?_, ?_⟩
  · simp only [reconnectWaits, INITIAL_RECONNECT_DELAY, runConnectionDelay,
      reconnectWait, nextReconnectDelay, if_neg Bool.false_ne_true]
    norm_num [min_def]
  · intro n
    induction n with
    | zero => rfl
    | succ k ih =>
      have h10 : nextReconnectDelay 10 = 10 := by
        norm_num [nextReconnectDelay, min_def]
      simp only [List.replicate_succ, reconnectWaits, runConnectionDelay,
        if_neg Bool.false_ne_true, h10, ih]
      norm_num [reconnectWait, min_def]
  · intro d
    simp only [reconnectWait, runConnectionDelay, if_pos rfl]
    norm_num [min_def]
  · intro d rest
    simp only [reconnectWaits, runConnectionDelay, reconnectWait,
      nextReconnectDelay, if_pos rfl]
    norm_num [min_def]

/-- Helper for C6: the offset loop never changes the message length. -/
theorem apply_haptic_length (cfg : HapticConfig) :
    ∀ (l : List ((String × Option String) × Nat)) (msg : List Nat),
      (apply_haptic_offsets cfg l msg).length = msg.length := by
  intro l
  induction l with
  | nil => intro msg; rfl
  | cons e t ih =>
    intro msg
    simp only [apply_haptic_offsets]
    split
    · rw [ih, List.length_set]
    · rw [ih]

/-- Helper for C6: the loop leaves bytes outside its offsets alone. -/
theorem apply_haptic_get_notin (cfg : HapticConfig) :
    ∀ (l : List ((String × Option String) × Nat)) (msg : List Nat) (off : Nat),
      off ∉ l.map (fun e => e.2) →
      (apply_haptic_offsets cfg l msg)[off]? = msg[off]? := by
  intro l
  induction l with
  | nil => intro msg off _; rfl
  | cons e t ih =>
    intro msg off hoff
    simp only [List.map_cons, List.mem_cons, not_or] at hoff
    simp only [apply_haptic_offsets]
    split
    · rw [ih _ _ hoff.2, List.getElem?_set_ne (Ne.symm hoff.1)]
    · exact ih _ _ hoff.2

/-- Helper for C6: with pairwise-distinct offsets, the byte at a table
offset is the resolved strength-or-speed value of its own pair. -/
theorem apply_haptic_get_mem (cfg : HapticConfig) :
    ∀ (l : List ((String × Option String) × Nat)) (msg : List Nat)
      (d : String) (m : Option String) (off : Nat),
      ((d, m), off) ∈ l → (l.map (fun e => e.2)).Nodup →
      off < msg.length →
      (apply_haptic_offsets cfg l msg)[off]? =
        some (Nat.lor (cfg.getStrength d m).value (cfg.getSpeed d m).value) := by
  intro l
  induction l with
  | nil => intro msg d m off hmem; cases hmem
  | cons e t ih =>
    intro msg d m off hmem hnd hlt
    simp only [List.map_cons, List.nodup_cons] at hnd
    rcases List.mem_cons.mp hmem with heq | hmem2
    · subst heq
      simp only [apply_haptic_offsets, if_pos hlt]
      rw [apply_haptic_get_notin cfg t _ off hnd.1]
      exact List.getElem?_set_self hlt
    · have hne : e.2 ≠ off := by
        intro hcontra
        exact hnd.1 (hcontra ▸ List.mem_map_of_mem (fun x => x.2) hmem2)
      simp only [apply_haptic_offsets]
      have hlen : ∀ msg1 : List Nat, msg1.length = msg.length →
          (apply_haptic_offsets cfg t msg1)[off]? =
            some (Nat.lor (cfg.getStrength d m).value (cfg.getSpeed d m).value) := by
        intro msg1 h1
        exact ih msg1 d m off hmem2 hnd.2 (h1 ▸ hlt)
      split
      · exact hlen _ (List.length_set _ _ _)
      · exact hlen _ rfl

/-- Helper for C6: the strength resolution of the source equals the
full claimed precedence chain for every pair. -/
theorem getStrength_value_spec (cfg : HapticConfig) (d : String)
    (m : Option String) :
    (cfg.getStrength d m).value = spec_strength_bits cfg d m := by
  unfold HapticConfig.getStrength spec_strength_bits
  cases hc : dGet cfg.comboSettings (d, m) with
  | some s => simp [hc]
  | none =>
    cases hd2 : dGet cfg.dialSettings d with
    | some s => simp [hc, hd2]
    | none => simp [hc, hd2]

/-- Helper for C6: for a non-empty dial name, the speed resolution of
the source equals the amended precedence: the combo level is consulted
only for present (non-empty) modifiers. -/
theorem getSpeed_value_spec (cfg : HapticConfig) (d : String)
    (m : Option String) (hd : d ≠ "")
    (hm : truthy m = m.isSome) :
    (cfg.getSpeed d m).value = spec_speed_bits_amended cfg d m := by
  unfold HapticConfig.getSpeed spec_speed_bits_amended spec_speed_bits
  cases m with
  | none =>
    simp only [truthy, Option.isSome_none] at hm ⊢
    simp only [and_false, if_false, if_pos hd]
    cases hd2 : dGet cfg.dialSpeedSettings d with
    | some s => simp [hd2]
    | none => simp [hd2]
  | some x =>
    have hx : x ≠ "" := by
      simpa [truthy] using hm
    cases hc : dGet cfg.comboSpeedSettings (d, some x) with
    | some s => simp [truthy, hd, hx, hc]
    | none =>
      cases hd2 : dGet cfg.dialSpeedSettings d with
      | some s2 => simp [truthy, hd, hx, hc, hd2]
      | none => simp [truthy, hd, hx, hc, hd2]

/-- Helper for C6: every table entry has a non-empty dial name and a
modifier that is either absent or a non-empty button name. -/
theorem haptic_table_entry_facts :
    ∀ e ∈ HAPTIC_BYTE_OFFSETS, e.1.1 ≠ "" ∧ truthy e.1.2 = e.1.2.isSome := by
  decide

/-- C6 counterexample: the unmodified `knob` pair sits at offset 4, and
for the configuration whose only setting is the per-combo speed
override on that pair, the encoder writes 0x00 there while the claimed
precedence (combo override first, also for speed) yields 0x02. -/
theorem claim_C6_counterexample :
    (("knob", (none : Option String)), 4) ∈ HAPTIC_BYTE_OFFSETS ∧
    (build_config_message (some knobNoneComboSpeed))[4]? ≠
      some (Nat.lor (spec_strength_bits knobNoneComboSpeed "knob" none)
                    (spec_speed_bits knobNoneComboSpeed "knob" none)) := by
  decide

/-- C6 amended: the encoder yields a 94-byte message whose byte at
every `(dial, modifier)` table offset is strength-bits OR speed-bits,
with strength resolved combo-override, then dial-override, then global,
then OFF, and speed resolved the same way for modified pairs but
skipping the combo level for the unmodified pair. -/
theorem claim_C6_amended (cfg : HapticConfig) (d : String)
    (m : Option String) (off : Nat)
    (h : ((d, m), off) ∈ HAPTIC_BYTE_OFFSETS) :
    (build_config_message (some cfg)).length = 94 ∧
    (build_config_message (some cfg))[off]? =
      some (Nat.lor (spec_strength_bits cfg d m)
                    (spec_speed_bits_amended cfg d m)) := by
  have hfacts := haptic_table_entry_facts _ h
  constructor
  · unfold build_config_message
    rw [apply_haptic_length]
    rfl
  · have hnd : (HAPTIC_BYTE_OFFSETS.map (fun e => e.2)).Nodup := by decide
    have hlt : off < CONFIG_MESSAGE_TEMPLATE.length := by
      have hall : ∀ e ∈ HAPTIC_BYTE_OFFSETS, e.2 < 94 := by decide
      exact hall _ h
    simp only [build_config_message, Option.getD_some]
    rw [apply_haptic_get_mem cfg HAPTIC_BYTE_OFFSETS CONFIG_MESSAGE_TEMPLATE
      d m off h hnd hlt]
    rw [getStrength_value_spec, getSpeed_value_spec cfg d m hfacts.1 hfacts.2]

/-- C6 witness: for the profile setting dial `knob` to strength STRONG
and speed SLOW, the byte at the unmodified `knob` offset 4 is
0x08 OR 0x02 = 0x0A. -/
theorem claim_C6_witness :
    (build_config_message (some knobStrongSlow))[4]? = some 0x0A := by
  have h := claim_C6_amended knobStrongSlow "knob" none 4 (by decide)
  rw [h.2]
  decide

/-- Helper for C8: codepoint lexicographic order is total. -/
theorem natLexLe_total : ∀ a b : List Nat,
    natLexLe a b = true ∨ natLexLe b a = true := by
  intro a
  induction a with
  | nil => intro b; left; rfl
  | cons x xs ih =>
    intro b
    cases b with
    | nil => right; rfl
    | cons y ys =>
      rcases Nat.lt_trichotomy x y with h | h | h
      · left; simp [natLexLe, h]
      · subst h
        rcases ih ys with h2 | h2
        · left; simp [natLexLe, h2]
        · right; simp [natLexLe, h2]
      · right; simp [natLexLe, h]

/-- Helper for C8: codepoint lexicographic order is antisymmetric. -/
theorem natLexLe_antisymm : ∀ a b : List Nat,
    natLexLe a b = true → natLexLe b a = true → a = b := by
  intro a
  induction a with
  | nil =>
    intro b _ hba
    cases b with
    | nil => rfl
    | cons y ys => simp [natLexLe] at hba
  | cons x xs ih =>
    intro b hab hba
    cases b with
    | nil => simp [natLexLe] at hab
    | cons y ys =>
      simp only [natLexLe] at hab hba
      by_cases h1 : x < y
      · simp [h1, Nat.lt_asymm h1] at hba
      · by_cases h2 : y < x
        · simp [h1, h2] at hab
        · have hxy : x = y := Nat.le_antisymm (Nat.le_of_not_lt h2) (Nat.le_of_not_lt h1)
          subst hxy
          simp only [Nat.lt_irrefl, if_false] at hab hba
          rw [ih ys hab hba]

/-- Helper for C8: codepoint lexicographic order is transitive. -/
theorem natLexLe_trans : ∀ a b c : List Nat,
    natLexLe a b = true → natLexLe b c = true → natLexLe a c = true := by
  intro a
  induction a with
  | nil => intro b c _ _; rfl
  | cons x xs ih =>
    intro b c hab hbc
    cases b with
    | nil => simp [natLexLe] at hab
    | cons y ys =>
      cases c with
      | nil => simp [natLexLe] at hbc
      | cons z zs =>
        simp only [natLexLe] at hab hbc ⊢
        by_cases h1 : x < y
        · by_cases h2 : y < z
          · simp [Nat.lt_trans h1 h2]
          · by_cases h3 : z < y
            · simp [h2, h3] at hbc
            · have hyz : y = z :=
                Nat.le_antisymm (Nat.le_of_not_lt h3) (Nat.le_of_not_lt h2)
              subst hyz
              simp [h1]
        · by_cases h1b : y < x
          · simp [h1, h1b] at hab
          · have hxy : x = y :=
              Nat.le_antisymm (Nat.le_of_not_lt h1b) (Nat.le_of_not_lt h1)
            subst hxy
            simp only [Nat.lt_irrefl, if_false] at hab
            by_cases h2 : x < z
            · simp [h2]
            · by_cases h3 : z < x
              · simp [h2, h3] at hbc
              · have hxz : x = z :=
                  Nat.le_antisymm (Nat.le_of_not_lt h3) (Nat.le_of_not_lt h2)
                subst hxz
                simp only [Nat.lt_irrefl, if_false] at hbc ⊢
                exact ih ys zs hab hbc

/-- Helper for C8: the tuple comparison on sort keys is total. -/
theorem keyLe_total (a b : List Nat × List Nat) :
    keyLe a b = true ∨ keyLe b a = true := by
  unfold keyLe
  by_cases h : a.1 = b.1
  · simp only [h, if_pos rfl]
    exact natLexLe_total a.2 b.2
  · simp only [if_neg h, if_neg (Ne.symm h)]
    exact natLexLe_total a.1 b.1

/-- Helper for C8: the tuple comparison on sort keys is transitive. -/
theorem keyLe_trans (a b c : List Nat × List Nat)
    (hab : keyLe a b = true) (hbc : keyLe b c = true) : keyLe a c = true := by
  unfold keyLe at hab hbc ⊢
  by_cases h1 : a.1 = b.1 <;> by_cases h2 : b.1 = c.1
  · have h3 : a.1 = c.1 := h1.trans h2
    rw [if_pos h1] at hab
    rw [if_pos h2] at hbc
    rw [if_pos h3]
    exact natLexLe_trans _ _ _ hab hbc
  · have h3 : a.1 ≠ c.1 := fun hh => h2 (h1 ▸ hh)
    rw [if_neg h2] at hbc
    rw [if_neg h3, h1]
    exact hbc
  · have h3 : a.1 ≠ c.1 := fun hh => h1 (hh.trans h2.symm)
    rw [if_neg h1] at hab
    rw [if_neg h3, ← h2]
    exact hab
  · rw [if_neg h1] at hab
    rw [if_neg h2] at hbc
    by_cases h3 : a.1 = c.1
    · exfalso
      rw [← h3] at hbc
      exact h1 (natLexLe_antisymm _ _ hab hbc)
    · rw [if_neg h3]
      exact natLexLe_trans _ _ _ hab hbc

/-- Helper for C8: no other stem sorts at or before `default`. -/
theorem stem_le_to_default (s : String) (h : s ≠ "default") :
    ¬ stem_le s "default" := by
  intro hcontra
  have hz : pyStr "z" = [122] := by decide
  simp [stem_le, sort_key, h, keyLe, hz, natLexLe] at hcontra

/-- C8 counterexample: `discover_profiles` places the `default` stem
first, not in plain alphabetical position, and so `on_window_change`
returns the default-named profile for a window that also matches the
enabled profile `alpha` — the profile the claim, which orders `default`
not-first, designates. -/
theorem claim_C8_counterexample :
    discover_profiles ["alpha", "default"] = ["default", "alpha"] ∧
    spec_claim_select [defaultMatchesX, alphaMatchesX] (some wiX) =
      some alphaMatchesX ∧
    (on_window_change matchScenarioState (some wiX)).currentProfile =
      defaultMatchesX ∧
    defaultMatchesX ≠ alphaMatchesX := by
  decide

/-- C8 amended: the store iterates profiles in the deterministic
stem-sorted order with the `default` profile placed first; it returns
the first profile that matches, where a profile matches when it is
enabled or named `default` and its `app_id` or `window_class` equals
the observation case-insensitively or its `window_title` is a
case-insensitive substring of the observed title; an absent observation
matches nothing; and when nothing matches, the profile named `default`
is selected if present, else the current profile is kept. -/
theorem claim_C8_amended :
    (∀ stems : List String,
      (discover_profiles stems).Perm stems ∧
      List.Sorted stem_le (discover_profiles stems) ∧
      ("default" ∈ stems → (discover_profiles stems).head? = some "default")) ∧
    (∀ (st : DriverState) (wi : Option WindowInfo),
      (on_window_change st wi).currentProfile =
        match st.profiles.find? (fun p => p.matches wi) with
        | some p => p
        | none => (st.profiles.find?
            (fun p => decide (p.name = "default"))).getD st.currentProfile) ∧
    (∀ (p : Profile) (w : WindowInfo),
      p.matches (some w) =
        ((p.enabled || p.name == "default") && spec_matcher_hit p w)) ∧
    (∀ p : Profile, p.matches none = false) := by
  haveI instTotal : IsTotal String stem_le :=
    ⟨fun a b => keyLe_total (sort_key a) (sort_key b)⟩
  haveI instTrans : IsTrans String stem_le :=
    ⟨fun a b c hab hbc => keyLe_trans _ _ _ hab hbc⟩
  refine ⟨?_, ?_, ?_, ?_⟩
  · intro stems
    refine ⟨List.perm_insertionSort stem_le stems,
      List.sorted_insertionSort stem_le stems, ?_⟩
    intro hmem
    have hmem2 : "default" ∈ discover_profiles stems :=
      ((List.perm_insertionSort stem_le stems).mem_iff).2 hmem
    have hsort : List.Sorted stem_le (discover_profiles stems) :=
      List.sorted_insertionSort stem_le stems
    cases hl : discover_profiles stems with
    | nil => rw [hl] at hmem2; cases hmem2
    | cons a t =>
      rw [hl] at hmem2 hsort
      by_cases ha : a = "default"
      · simp [ha]
      · rcases List.mem_cons.mp hmem2 with heq | hmem3
        · exact absurd heq.symm ha
        · have hle := (List.sorted_cons.mp hsort).1 _ hmem3
          exact absurd hle (stem_le_to_default a ha)
  · intro st wi
    unfold on_window_change
    cases h1 : st.profiles.find? (fun p => p.matches wi) with
    | some p =>
      simp only [h1]
      by_cases hp : p = st.currentProfile
      · simp [hp]
      · rw [if_pos hp]
        simp only [switch_profile, if_neg hp]
        split <;> rfl
    | none =>
      simp only [h1]
      cases h2 : st.profiles.find? (fun p => decide (p.name = "default")) with
      | some q =>
        simp only [h2, Option.getD_some]
        by_cases hq : q = st.currentProfile
        · simp [hq]
        · rw [if_pos hq]
          simp only [switch_profile, if_neg hq]
          split <;> rfl
      | none => simp [h2]
  · intro p w
    unfold Profile.matches spec_matcher_hit
    by_cases he : p.enabled <;> by_cases hn : p.name = "default" <;>
      simp [he, hn, beq_iff_eq]
  · intro p
    unfold Profile.matches
    split <;> rfl

/-- C8 witness: the amended theorem applied to concrete stems and to
the concrete matching scenario. -/
theorem claim_C8_witness :
    (discover_profiles ["beta", "default", "alpha"]).head? = some "default" ∧
    (on_window_change matchScenarioState (some wiX)).currentProfile =
      defaultMatchesX := by
  refine ⟨(claim_C8_amended.1 ["beta", "default", "alpha"]).2.2 (by decide), ?_⟩
  rw [claim_C8_amended.2.1 matchScenarioState (some wiX)]
  decide

end Tourbox
